import Mathlib

/-!
# Verification of the KripV1 execution core

Shallow embedding of the execution core of the KripV1 trading system:
the risk-based position sizer, the bracket order manager, the execution
orchestrator, the LLM-output decision validator, and the position
normalization of the two venue adapters.  Prices, quantities and USD
amounts are modelled as rationals (Python floats, used exactly);
fallible calls return `Option`; the venue adapter is modelled as a
script of responses consumed in call order, and each operation records
the trace of adapter requests it makes.
-/

namespace KripV1

/-! ## Python builtins used by the source -/

/-- Python's builtin `abs` on a numeric value. -/
def pyAbs (q : ℚ) : ℚ := if q < 0 then -q else q

/-- Python's builtin `max` of two numeric values. -/
def pyMax (a b : ℚ) : ℚ := if a < b then b else a

/-- Python truthiness of an optional numeric value (`None` and `0` are
falsy); used for `if take_profit_px:`-style guards. -/
def pyTruthy : Option ℚ → Bool
  | none => false
  | some q => decide (q ≠ 0)

theorem pyAbs_eq_abs (q : ℚ) : pyAbs q = |q| := by
  unfold pyAbs
  rcases lt_or_le q 0 with h | h
  · simp [h, abs_of_neg h]
  · simp [not_lt.mpr h, abs_of_nonneg h]

/-! ## Klines and the risk sizer
Source: `src/agents/llm_agent_broker_agnostic.py`,
`LLMAgent.calculate_quantity_based_on_risk` (lines 156-226). -/

/-- One OHLCV bar in the normalized kline format `{"t","o","h","l","c","v"}`
returned by the adapters' `get_klines`. -/
structure Kline where
  t : ℚ
  o : ℚ
  h : ℚ
  l : ℚ
  c : ℚ
  v : ℚ
deriving DecidableEq, Repr

/-- `max(high - low, abs(high - prev_close), abs(low - prev_close))`
for one bar `cur` with previous bar `prev` (source lines 196-201). -/
def trueRange (prev cur : Kline) : ℚ :=
  pyMax (cur.h - cur.l) (pyMax (pyAbs (cur.h - prev.c)) (pyAbs (cur.l - prev.c)))

/-- The list of true ranges of consecutive bars: the Python loop
`for i in range(1, len(klines_4h))` collecting `tr(klines[i-1], klines[i])`. -/
def trueRanges (klines : List Kline) : List ℚ :=
  List.zipWith trueRange klines klines.tail

/-- Outcome of a Python call: either an exception was raised (with the
exception's name) or a value was returned (`none` models Python `None`). -/
inductive SizerOutcome where
  | raised (exc : String)
  | returned (q : Option ℚ)
deriving DecidableEq, Repr

/-- `LLMAgent.calculate_quantity_based_on_risk` (source lines 156-226).
`klines_4h` is the adapter's response to `get_klines(symbol, "4h", 20)`.
Every path of the source prints and `return`s (either `None` or the
computed quantity); no path raises. -/
def calculate_quantity_based_on_risk
    (klines_4h : List Kline) (entry_price stop_loss_price risk_usd : ℚ) :
    SizerOutcome :=
  -- `if not klines_4h or len(klines_4h) < 15: return None`
  if klines_4h.length < 15 then .returned none
  else
    let true_ranges := trueRanges klines_4h
    -- `if len(true_ranges) < 14: return None`
    if true_ranges.length < 14 then .returned none
    else
      -- `atr = sum(true_ranges[-14:]) / 14` (computed and logged; not used
      -- in the quantity formula below, exactly as in the source)
      let atr := (true_ranges.drop (true_ranges.length - 14)).sum / 14
      -- `sl_distance = abs(entry_price - stop_loss_price)`
      let sl_distance := pyAbs (entry_price - stop_loss_price)
      -- `if sl_distance == 0: return None`
      if sl_distance = 0 then .returned none
      else
        let _ := atr
        -- `calculated_quantity = risk_usd / sl_distance`
        .returned (some (risk_usd / sl_distance))

/-- A concrete flat bar used to build witness kline lists. -/
def flatBar (x : ℚ) : Kline := ⟨0, x, x, x, x, 0⟩

/-- Fifteen concrete bars: enough for the ATR(14) precondition. -/
def bars15 : List Kline := List.replicate 15 (flatBar 100)

theorem trueRanges_length (klines : List Kline) :
    (trueRanges klines).length = klines.length - 1 := by
  simp [trueRanges, List.length_zipWith, List.length_tail]

/-- C1: for every entry price, stop-loss price and `riskUsd` with
`riskUsd > 0` and `|entry - stop| > 0`, and at least 15 klines available
(so the ATR precondition holds), the risk sizer returns a quantity exactly
equal to `riskUsd / |entry - stop|`. -/
theorem C1_sizer_exact_quantity
    (klines : List Kline) (entry stop riskUsd : ℚ)
    (hk : 15 ≤ klines.length) (hd : 0 < |entry - stop|) (hr : 0 < riskUsd) :
    calculate_quantity_based_on_risk klines entry stop riskUsd =
      .returned (some (riskUsd / |entry - stop|)) := by
  have h1 : ¬ klines.length < 15 := by omega
  have hlen : (trueRanges klines).length = klines.length - 1 :=
    trueRanges_length klines
  have h2 : ¬ (trueRanges klines).length < 14 := by omega
  have h3 : ¬ pyAbs (entry - stop) = 0 := by
    rw [pyAbs_eq_abs]; exact ne_of_gt hd
  simp only [calculate_quantity_based_on_risk, if_neg h1, if_neg h2, if_neg h3,
    pyAbs_eq_abs]
  rw [if_neg (show ¬ |entry - stop| = 0 from ne_of_gt hd)]

theorem C1_sizer_exact_quantity_witness :
    15 ≤ bars15.length ∧ 0 < |(110 : ℚ) - 100| ∧ 0 < (50 : ℚ) ∧
    calculate_quantity_based_on_risk bars15 110 100 50 =
      .returned (some (50 / |(110 : ℚ) - 100|)) :=
  ⟨by norm_num [bars15], by norm_num, by norm_num,
    C1_sizer_exact_quantity bars15 110 100 50 (by norm_num [bars15])
      (by norm_num) (by norm_num)⟩

/-- C8 counterexample: with `entry == stop` (and 15 klines supplied) the
sizer returns Python `None` — it does not raise `InvalidInputError`
(no such exception class even exists in the repository). -/
theorem C8_zero_distance_counterexample :
    calculate_quantity_based_on_risk bars15 100 100 50 = .returned none ∧
    SizerOutcome.returned none ≠ SizerOutcome.raised "InvalidInputError" := by
  constructor
  · norm_num [calculate_quantity_based_on_risk, bars15, trueRanges, trueRange,
      flatBar, pyAbs, pyMax, List.replicate]
  · simp

/-- C8 amended: for every entry price equal to the stop-loss price (stop
distance zero) and at least 15 supplied klines, the risk sizer returns
`None` (no quantity) rather than dividing by zero or raising; it never
raises an exception. -/
theorem C8_amended_zero_distance_returns_none
    (klines : List Kline) (entry stop riskUsd : ℚ)
    (hk : 15 ≤ klines.length) (heq : entry = stop) :
    calculate_quantity_based_on_risk klines entry stop riskUsd =
      .returned none := by
  have h1 : ¬ klines.length < 15 := by omega
  have hlen : (trueRanges klines).length = klines.length - 1 :=
    trueRanges_length klines
  have h2 : ¬ (trueRanges klines).length < 14 := by omega
  have h3 : pyAbs (entry - stop) = 0 := by
    rw [pyAbs_eq_abs, heq]; simp
  simp only [calculate_quantity_based_on_risk, if_neg h1, if_neg h2, if_pos h3]

theorem C8_amended_zero_distance_returns_none_witness :
    15 ≤ bars15.length ∧ (100 : ℚ) = 100 ∧
    calculate_quantity_based_on_risk bars15 100 100 50 = .returned none :=
  ⟨by norm_num [bars15], rfl,
    C8_amended_zero_distance_returns_none bars15 100 100 50
      (by norm_num [bars15]) rfl⟩

/-! ## Bracket order manager
Source: `src/exchanges/order_manager.py`, `OrderManager` (lines 18-150).
The venue adapter's `place_order` is modelled as a script of responses
consumed one per call, and the manager records the trace of `place_order`
requests it issues.  An `OrderAck` stands for a truthy (non-empty)
response dict; `none` in the script stands for a falsy response
(`None` or an empty dict), which the source treats as failure. -/

/-- An acknowledgement dict returned by `place_order`.  The source reads
the id as `response.get('orderId') or response.get('id')`, so both keys
are modelled. -/
structure OrderAck where
  orderId : Option Nat
  id : Option Nat
deriving DecidableEq, Repr

/-- Python truthiness of an optional order id (`None` and `0` are falsy). -/
def pyTruthyId : Option Nat → Bool
  | none => false
  | some n => decide (n ≠ 0)

/-- Python's short-circuiting `a or b` on optional order ids. -/
def pyOr (a b : Option Nat) : Option Nat := if pyTruthyId a then a else b

/-- `response.get('orderId') or response.get('id')` (source lines 65, 81, 97). -/
def ackOrderId (ack : OrderAck) : Option Nat := pyOr ack.orderId ack.id

/-- One `place_order` request as issued by the manager to the adapter
(keyword arguments of the calls at source lines 49-56, 72-79, 88-95). -/
structure PlaceReq where
  coin : String
  is_buy : Bool
  sz : ℚ
  limit_px : ℚ
  order_type : String
  reduce_only : Bool
deriving DecidableEq, Repr

/-- The id triple tracked per bracket: `{'main': ..., 'tp': ..., 'sl': ...}`
(source lines 64-68). -/
structure BracketIds where
  main : Option Nat
  tp : Option Nat
  sl : Option Nat
deriving DecidableEq, Repr

/-- Result of `place_bracket_order` together with the trace of adapter
requests issued and the manager's registry after the call. -/
structure PlaceOutcome where
  result : Option BracketIds
  calls : List PlaceReq
  registry : List (String × BracketIds)
deriving DecidableEq, Repr

/-- One optional TP/SL leg (source lines 70-100): if the price is truthy,
issue a reduce-only `place_order` at that price and record the returned id
(`None` on a falsy response); otherwise issue nothing.  Returns the
recorded id, the requests issued, and the remaining response script. -/
def placeLeg (symbol : String) (legBuy : Bool) (quantity : ℚ)
    (order_type : String) (px : Option ℚ) (script : List (Option OrderAck)) :
    Option Nat × List PlaceReq × List (Option OrderAck) :=
  if pyTruthy px then
    let req : PlaceReq :=
      { coin := symbol, is_buy := legBuy, sz := quantity,
        limit_px := px.getD 0, order_type := order_type, reduce_only := true }
    match script with
    | [] => (none, [req], [])
    | none :: rest => (none, [req], rest)
    | some ack :: rest => (ackOrderId ack, [req], rest)
  else (none, [], script)

/-- `OrderManager.place_bracket_order` (source lines 31-106) against a
scripted adapter.  `registry` is `self.active_brackets` before the call;
`now` is `int(time.time())` used to build the position key. -/
def place_bracket_order (registry : List (String × BracketIds))
    (script : List (Option OrderAck)) (symbol side : String)
    (quantity limit_px : ℚ) (take_profit_px stop_loss_px : Option ℚ)
    (order_type : String) (now : Nat) : PlaceOutcome :=
  let position_key := symbol ++ "_" ++ toString now
  let is_buy_main := side.toUpper == "BUY"
  let mainReq : PlaceReq :=
    { coin := symbol, is_buy := is_buy_main, sz := quantity,
      limit_px := limit_px, order_type := order_type, reduce_only := false }
  match script with
  | [] =>
    -- adapter returned a falsy response: `if not main_order_response: return None`
    { result := none, calls := [mainReq], registry := registry }
  | none :: _ =>
    { result := none, calls := [mainReq], registry := registry }
  | some mainAck :: script1 =>
    let tpRes := placeLeg symbol (!is_buy_main) quantity order_type
      take_profit_px script1
    let slRes := placeLeg symbol (!is_buy_main) quantity order_type
      stop_loss_px tpRes.2.2
    let ids : BracketIds :=
      { main := ackOrderId mainAck, tp := tpRes.1, sl := slRes.1 }
    -- `self.active_brackets[position_key] = bracket_ids`
    { result := some ids,
      calls := mainReq :: (tpRes.2.1 ++ slRes.2.1),
      registry := (position_key, ids) :: registry }

/-- The main-order request of a `place_bracket_order` call, for stating
trace properties. -/
def mainPlaceReq (symbol side : String) (quantity limit_px : ℚ)
    (order_type : String) : PlaceReq :=
  { coin := symbol, is_buy := side.toUpper == "BUY", sz := quantity,
    limit_px := limit_px, order_type := order_type, reduce_only := false }

/-- C2: if placing the main (entry) order fails, `place_bracket_order`
returns `None`, the only adapter call made is the main order (no TP/SL
placement call), and the registry of active brackets is unchanged. -/
theorem C2_main_failure_aborts (registry : List (String × BracketIds))
    (rest : List (Option OrderAck)) (symbol side : String)
    (quantity limit_px : ℚ) (take_profit_px stop_loss_px : Option ℚ)
    (order_type : String) (now : Nat) :
    place_bracket_order registry (none :: rest) symbol side quantity limit_px
        take_profit_px stop_loss_px order_type now =
      { result := none,
        calls := [mainPlaceReq symbol side quantity limit_px order_type],
        registry := registry } := by
  simp [place_bracket_order, mainPlaceReq]

/-- The lifecycle status of a bracket from §4.4 of the specification. -/
inductive BracketStatus where
  | ACTIVE
  | PARTIALLY_PLACED
  | FAILED
deriving DecidableEq, Repr

/-- Modelled from the spec: the dict returned by `place_bracket_order`
carries no explicit status field, so the §4.4 lifecycle status is the
abstraction of the returned value: `FAILED` when the call returned `None`
(main order failed), `ACTIVE` when every requested leg recorded an id,
and `PARTIALLY_PLACED` when the main order succeeded but a requested TP
and/or SL leg recorded no id. -/
def bracketStatus (tpRequested slRequested : Bool) :
    Option BracketIds → BracketStatus
  | none => .FAILED
  | some ids =>
    if (tpRequested && ids.tp.isNone) || (slRequested && ids.sl.isNone) then
      .PARTIALLY_PLACED
    else .ACTIVE

/-- Every request issued by a TP/SL leg is the reduce-only request at the
leg's price: the leg issues at most one request and nothing else. -/
theorem placeLeg_calls (symbol : String) (legBuy : Bool) (quantity : ℚ)
    (order_type : String) (px : Option ℚ) (script : List (Option OrderAck)) :
    ∀ req ∈ (placeLeg symbol legBuy quantity order_type px script).2.1,
      req = { coin := symbol, is_buy := legBuy, sz := quantity,
              limit_px := px.getD 0, order_type := order_type,
              reduce_only := true } := by
  unfold placeLeg
  by_cases h : pyTruthy px
  · rcases script with _ | ⟨_ | ack, rest⟩ <;> simp [h]
  · simp [h]

/-- C3: if the main order succeeds but the take-profit placement fails,
`place_bracket_order` returns a bracket whose (spec §4.4) status is
`PARTIALLY_PLACED`, whose main order id is set, whose take-profit order id
is `None`, and the stop-loss placement is still attempted on the adapter. -/
theorem C3_tp_failure_partially_placed
    (registry : List (String × BracketIds)) (rest : List (Option OrderAck))
    (symbol side : String) (quantity limit_px tp_px sl_px : ℚ)
    (order_type : String) (now : Nat) (mainAck : OrderAck) (n : Nat)
    (out : PlaceOutcome)
    (hout : out = place_bracket_order registry (some mainAck :: none :: rest)
      symbol side quantity limit_px (some tp_px) (some sl_px) order_type now)
    (htp : tp_px ≠ 0) (hsl : sl_px ≠ 0)
    (hid : mainAck.orderId = some n) (hn : n ≠ 0) :
    out.result.map BracketIds.main = some (some n) ∧
    out.result.map BracketIds.tp = some none ∧
    bracketStatus true true out.result = .PARTIALLY_PLACED ∧
    ({ coin := symbol, is_buy := !(side.toUpper == "BUY"), sz := quantity,
       limit_px := sl_px, order_type := order_type,
       reduce_only := true } : PlaceReq) ∈ out.calls := by
  subst hout
  have htp' : pyTruthy (some tp_px) = true := by simp [pyTruthy, htp]
  have hsl' : pyTruthy (some sl_px) = true := by simp [pyTruthy, hsl]
  have hmain : ackOrderId mainAck = some n := by
    simp [ackOrderId, pyOr, pyTruthyId, hid, hn]
  rcases rest with _ | ⟨_ | ack, rest'⟩ <;>
    simp [place_bracket_order, placeLeg, htp', hsl', hmain, bracketStatus]

theorem C3_tp_failure_partially_placed_witness :
    let out := place_bracket_order [] [some ⟨some 7, none⟩, none, some ⟨some 9, none⟩]
      "BTC" "BUY" 1 100 (some 110) (some 90) "limit" 0
    out.result.map BracketIds.main = some (some 7) ∧
    out.result.map BracketIds.tp = some none ∧
    bracketStatus true true out.result = .PARTIALLY_PLACED ∧
    ({ coin := "BTC", is_buy := !(String.toUpper "BUY" == "BUY"), sz := 1,
       limit_px := 90, order_type := "limit",
       reduce_only := true } : PlaceReq) ∈ out.calls :=
  C3_tp_failure_partially_placed [] [some ⟨some 9, none⟩] "BTC" "BUY" 1 100
    110 90 "limit" 0 ⟨some 7, none⟩ 7 _ rfl (by norm_num) (by norm_num)
    rfl (by norm_num)

/-- C9: in every `place_bracket_order` call in which the main order
succeeds, the first adapter request is the main entry order on the trade's
side (not reduce-only), and every subsequent request (the attempted TP and
SL legs) carries exactly the main order's quantity, the opposite side of
the trade, and the reduce-only flag. -/
theorem C9_legs_mirror_main
    (registry : List (String × BracketIds)) (mainAck : OrderAck)
    (script1 : List (Option OrderAck)) (symbol side : String)
    (quantity limit_px : ℚ) (take_profit_px stop_loss_px : Option ℚ)
    (order_type : String) (now : Nat) (out : PlaceOutcome)
    (hout : out = place_bracket_order registry (some mainAck :: script1)
      symbol side quantity limit_px take_profit_px stop_loss_px
      order_type now) :
    out.calls.head? =
      some (mainPlaceReq symbol side quantity limit_px order_type) ∧
    ∀ req ∈ out.calls.tail,
      req.sz = quantity ∧ req.is_buy = !(side.toUpper == "BUY") ∧
      req.reduce_only = true := by
  subst hout
  constructor
  · simp [place_bracket_order, mainPlaceReq]
  · intro req hreq
    simp only [place_bracket_order, List.tail_cons, List.mem_append] at hreq
    rcases hreq with h | h
    · have := placeLeg_calls symbol (!(side.toUpper == "BUY")) quantity
        order_type take_profit_px script1 req h
      subst this
      exact ⟨rfl, rfl, rfl⟩
    · have := placeLeg_calls symbol (!(side.toUpper == "BUY")) quantity
        order_type stop_loss_px
        (placeLeg symbol (!(side.toUpper == "BUY")) quantity order_type
          take_profit_px script1).2.2 req h
      subst this
      exact ⟨rfl, rfl, rfl⟩

theorem C9_legs_mirror_main_witness :
    let out := place_bracket_order []
      [some ⟨some 7, none⟩, some ⟨some 8, none⟩, some ⟨some 9, none⟩]
      "ETH" "SELL" 2 3000 (some 2900) (some 3100) "limit" 5
    out.calls.head? = some (mainPlaceReq "ETH" "SELL" 2 3000 "limit") ∧
    ∀ req ∈ out.calls.tail,
      req.sz = 2 ∧ req.is_buy = !(String.toUpper "SELL" == "BUY") ∧
      req.reduce_only = true :=
  C9_legs_mirror_main [] ⟨some 7, none⟩
    [some ⟨some 8, none⟩, some ⟨some 9, none⟩] "ETH" "SELL" 2 3000
    (some 2900) (some 3100) "limit" 5 _ rfl

/-- C10: when the main order succeeds, a take-profit (resp. stop-loss)
price that is Python-falsy — absent (`None`) or equal to `0` — is treated
as not provided: no adapter request is issued for that leg (the call
trace is the main request followed by the other leg's requests only), and
the returned bracket records `None` for that leg's order id. -/
theorem C10_falsy_leg_price_skipped
    (registry : List (String × BracketIds)) (mainAck : OrderAck)
    (script1 : List (Option OrderAck)) (symbol side : String)
    (quantity limit_px : ℚ) (take_profit_px stop_loss_px : Option ℚ)
    (order_type : String) (now : Nat) (out : PlaceOutcome)
    (hout : out = place_bracket_order registry (some mainAck :: script1)
      symbol side quantity limit_px take_profit_px stop_loss_px
      order_type now) :
    (pyTruthy take_profit_px = false →
      out.result.map BracketIds.tp = some none ∧
      out.calls = mainPlaceReq symbol side quantity limit_px order_type ::
        (placeLeg symbol (!(side.toUpper == "BUY")) quantity order_type
          stop_loss_px script1).2.1) ∧
    (pyTruthy stop_loss_px = false →
      out.result.map BracketIds.sl = some none ∧
      out.calls = mainPlaceReq symbol side quantity limit_px order_type ::
        (placeLeg symbol (!(side.toUpper == "BUY")) quantity order_type
          take_profit_px script1).2.1) := by
  subst hout
  constructor
  · intro htp
    constructor
    · simp [place_bracket_order, placeLeg, htp]
    · simp [place_bracket_order, mainPlaceReq]
      rw [show (placeLeg symbol (!(side.toUpper == "BUY")) quantity order_type
          take_profit_px script1) = (none, [], script1) by
        simp [placeLeg, htp]]
      simp
  · intro hsl
    constructor
    · simp [place_bracket_order, placeLeg, hsl]
    · simp [place_bracket_order, mainPlaceReq]
      rw [show (placeLeg symbol (!(side.toUpper == "BUY")) quantity order_type
          stop_loss_px ((placeLeg symbol (!(side.toUpper == "BUY")) quantity
            order_type take_profit_px script1)).2.2) =
          (none, [], (placeLeg symbol (!(side.toUpper == "BUY")) quantity
            order_type take_profit_px script1).2.2) by
        simp [placeLeg, hsl]]

theorem C10_falsy_leg_price_skipped_witness :
    let out := place_bracket_order [] [some ⟨some 7, none⟩, some ⟨some 8, none⟩]
      "BTC" "BUY" 1 100 (some 0) (some 90) "limit" 0
    out.result.map BracketIds.tp = some none ∧
    out.calls = mainPlaceReq "BTC" "BUY" 1 100 "limit" ::
      (placeLeg "BTC" (!(String.toUpper "BUY" == "BUY")) 1 "limit"
        (some 90) [some ⟨some 8, none⟩]).2.1 :=
  (C10_falsy_leg_price_skipped [] ⟨some 7, none⟩ [some ⟨some 8, none⟩]
    "BTC" "BUY" 1 100 (some 0) (some 90) "limit" 0 _ rfl).1
    (by norm_num [pyTruthy])

/-! ## Execution orchestrator
Source: `src/agents/llm_agent_broker_agnostic.py`,
`LLMAgent.execute_decision` (lines 230-296). -/

/-- A parsed trading decision as consumed by `execute_decision`: the
fields read from the decision dict, after the `.get(...)` defaulting done
there (`risk_usd` defaults to `10.0` and `quantity` to `0.0` when the key
is absent; a stored Python `None` is modelled by `none`). -/
structure Decision where
  symbol : String
  action : String
  quantity : ℚ
  stop_loss : Option ℚ
  profit_target : Option ℚ
  risk_usd : Option ℚ
  leverage : Int
deriving DecidableEq, Repr

/-- An adapter mutation call: `place_order` or `cancel_order`. -/
inductive MutCall where
  | placeOrder (req : PlaceReq)
  | cancelOrder (orderId : Nat) (symbol : String)
deriving DecidableEq, Repr

/-- The adapter responses available to one `execute_decision` cycle:
the mid-price map, the 4h klines for the decision's symbol, and the
scripted `place_order` responses. -/
structure ExecEnv where
  mids : List (String × ℚ)
  klines : List Kline
  script : List (Option OrderAck)
  now : Nat

/-- Registry and adapter-mutation trace left by one `execute_decision`. -/
structure ExecOutcome where
  registry : List (String × BracketIds)
  muts : List MutCall
deriving DecidableEq, Repr

/-- `symbol in all_mids` lookup followed by `all_mids[symbol]`. -/
def lookupMid (mids : List (String × ℚ)) (s : String) : Option ℚ :=
  (mids.find? (fun p => p.1 == s)).map (fun p => p.2)

/-- `LLMAgent.execute_decision` (source lines 230-296).  Modelled with the
adapter's responses passed in `env`; the outcome records the bracket
registry after the call and every adapter mutation call made. -/
def execute_decision (env : ExecEnv) (registry : List (String × BracketIds))
    (d : Decision) : ExecOutcome :=
  -- `if action == "HOLD": ... return`
  if d.action == "HOLD" then ⟨registry, []⟩
  else
    -- `if not all_mids or symbol not in all_mids: ... return`
    match lookupMid env.mids d.symbol with
    | none => ⟨registry, []⟩
    | some current_price =>
      let is_buy := d.action.toUpper == "BUY"
      -- `if sl and risk_usd:` (Python truthiness on floats and None)
      let calculated_qty : Option ℚ :=
        if pyTruthy d.stop_loss && pyTruthy d.risk_usd then
          match calculate_quantity_based_on_risk env.klines current_price
            (d.stop_loss.getD 0) (d.risk_usd.getD 0) with
          | .returned q => q
          | .raised _ => none
        else
          -- `calculated_qty = decision.get("quantity", 0.0)`
          some d.quantity
      match calculated_qty with
      | none => ⟨registry, []⟩   -- `return` when risk-based sizing failed
      | some qty =>
        -- `if calculated_qty <= 0: ... return`
        if qty ≤ 0 then ⟨registry, []⟩
        else
          -- `limit_px = current_price * 1.001 if is_buy else current_price * 0.999`
          let limit_px := if is_buy then current_price * (1001 / 1000)
            else current_price * (999 / 1000)
          let out := place_bracket_order registry env.script d.symbol
            d.action qty limit_px d.profit_target d.stop_loss "limit" env.now
          ⟨out.registry, out.calls.map MutCall.placeOrder⟩

/-- C4: for every decision whose action is `HOLD`, regardless of every
other field of the decision and of the environment, executing the
decision makes no adapter mutation call (no `place_order`, no
`cancel_order`) and leaves the registry unchanged. -/
theorem C4_hold_is_noop (env : ExecEnv)
    (registry : List (String × BracketIds)) (d : Decision)
    (hhold : d.action = "HOLD") :
    execute_decision env registry d = ⟨registry, []⟩ := by
  simp [execute_decision, hhold]

theorem C4_hold_is_noop_witness :
    (Decision.action ⟨"BTC", "HOLD", -5, some 90, some 110, some 10, 10⟩ =
      "HOLD") ∧
    execute_decision ⟨[("BTC", 100)], bars15, [some ⟨some 7, none⟩], 0⟩ []
        ⟨"BTC", "HOLD", -5, some 90, some 110, some 10, 10⟩ = ⟨[], []⟩ :=
  ⟨rfl, C4_hold_is_noop ⟨[("BTC", 100)], bars15, [some ⟨some 7, none⟩], 0⟩ []
    ⟨"BTC", "HOLD", -5, some 90, some 110, some 10, 10⟩ rfl⟩

/-! ## Venue adapter position normalization
Source: `src/exchanges/bingx_exchange.py`, `BingXClient.get_positions`
(lines 112-133) and `src/exchanges/hyperliquid_exchange.py`,
`HyperliquidExchange.get_positions` (lines 111-139), as pure functions of
the venue payload. -/

/-- The normalized position record produced by both adapters. -/
structure Position where
  symbol : String
  side : String
  quantity : ℚ
  entryPrice : ℚ
  leverage : ℚ
  unrealizedPnl : ℚ
  liquidationPrice : ℚ
deriving DecidableEq, Repr

/-- One entry of the BingX `/user/positions` payload, with the fields the
source reads (optional fields are read with `.get(key, default)`). -/
structure BingXRawPosition where
  symbol : String
  positionAmt : ℚ
  entryPrice : ℚ
  leverage : Option Int
  unrealizedProfit : Option ℚ
  liquidationPrice : Option ℚ
deriving DecidableEq, Repr

/-- `BingXClient.get_positions` on a successfully fetched payload: every
payload entry is normalized and returned — there is no nonzero-size
filter in the source. -/
def bingx_get_positions (payload : List BingXRawPosition) : List Position :=
  payload.map (fun pos =>
    { symbol := pos.symbol.replace "-USDT" "",
      side := if (0 : ℚ) < pos.positionAmt then "LONG" else "SHORT",
      quantity := pyAbs pos.positionAmt,
      entryPrice := pos.entryPrice,
      leverage := ((pos.leverage.getD 1 : Int) : ℚ),
      unrealizedPnl := pos.unrealizedProfit.getD 0,
      liquidationPrice := pos.liquidationPrice.getD 0 })

/-- One entry of the Hyperliquid `clearinghouseState.assetPositions`
payload, with the fields the source reads. -/
structure HLRawPosition where
  positionValue : Option ℚ
  szi : Option ℚ
  coin : String
  entryPx : ℚ
  leverageValue : Option ℚ
  unrealizedPnl : ℚ
  liquidationPx : Option ℚ
deriving DecidableEq, Repr

/-- `HyperliquidExchange.get_positions` on a successfully fetched payload:
keeps only entries with `positionValue != 0` and normalizes them. -/
def hyperliquid_get_positions (payload : List HLRawPosition) :
    List Position :=
  payload.filterMap (fun pos =>
    if pos.positionValue.getD 0 ≠ 0 then
      some { symbol := pos.coin,
             side := if (0 : ℚ) < pos.szi.getD 0 then "LONG" else "SHORT",
             quantity := pyAbs (pos.szi.getD 0),
             entryPrice := pos.entryPx,
             leverage := pos.leverageValue.getD 1,
             unrealizedPnl := pos.unrealizedPnl,
             liquidationPrice := pos.liquidationPx.getD 0 }
    else none)

/-- A BingX payload entry with a zero-size position. -/
def bingxZeroRaw : BingXRawPosition :=
  ⟨"BTC-USDT", 0, 40000, some 5, some 0, some 0⟩

/-- C7 counterexample: on the BingX payload holding one position of size
zero, `get_positions` returns that position (quantity `0`, side
`"SHORT"`) instead of filtering it out — the claim's nonzero-size filter
does not exist in the BingX adapter. -/
theorem C7_zero_size_not_filtered_counterexample :
    (bingx_get_positions [bingxZeroRaw]).length = 1 ∧
    (bingx_get_positions [bingxZeroRaw]).head?.map Position.quantity =
      some 0 ∧
    (bingx_get_positions [bingxZeroRaw]).head?.map Position.side =
      some "SHORT" := by
  refine ⟨rfl, ?_, ?_⟩ <;>
    norm_num [bingx_get_positions, bingxZeroRaw, pyAbs]

/-- C7 amended: the side normalization holds for both adapters (positive
venue size maps to `LONG`, any other size to `SHORT`, quantity is the
absolute size), and Hyperliquid filters to entries with nonzero
`positionValue`; but BingX returns one normalized position per payload
entry with no nonzero-size filter. -/
theorem C7_amended_positions_normalized
    (bp : List BingXRawPosition) (hp : List HLRawPosition) :
    (bingx_get_positions bp).length = bp.length ∧
    (∀ p ∈ bingx_get_positions bp, ∃ raw ∈ bp,
       p.quantity = |raw.positionAmt| ∧
       p.side = if (0 : ℚ) < raw.positionAmt then "LONG" else "SHORT") ∧
    (∀ p ∈ hyperliquid_get_positions hp, ∃ raw ∈ hp,
       raw.positionValue.getD 0 ≠ 0 ∧
       p.quantity = |raw.szi.getD 0| ∧
       p.side = if (0 : ℚ) < raw.szi.getD 0 then "LONG" else "SHORT") := by
  refine ⟨by simp [bingx_get_positions], ?_, ?_⟩
  · intro p hp'
    rcases List.mem_map.mp hp' with ⟨raw, hraw, hEq⟩
    exact ⟨raw, hraw, by rw [← hEq]; simp [pyAbs_eq_abs],
      by rw [← hEq]⟩
  · intro p hp'
    rcases List.mem_filterMap.mp hp' with ⟨raw, hraw, hEq⟩
    by_cases hv : raw.positionValue.getD 0 ≠ 0
    · rw [if_pos hv] at hEq
      refine ⟨raw, hraw, hv, ?_, ?_⟩
      · rw [← Option.some_inj.mp hEq]; simp [pyAbs_eq_abs]
      · rw [← Option.some_inj.mp hEq]
    · rw [if_neg hv] at hEq
      exact absurd hEq (by simp)

/-- A Hyperliquid payload entry with an open short position. -/
def hlShortRaw : HLRawPosition :=
  ⟨some 100, some (-2), "ETH", 50, some 3, 1, some 40⟩

theorem C7_amended_positions_normalized_witness :
    ∃ raw ∈ [hlShortRaw],
      raw.positionValue.getD 0 ≠ 0 ∧
      (Position.mk "ETH" "SHORT" 2 50 3 1 40).quantity =
        |raw.szi.getD 0| ∧
      (Position.mk "ETH" "SHORT" 2 50 3 1 40).side =
        if (0 : ℚ) < raw.szi.getD 0 then "LONG" else "SHORT" :=
  (C7_amended_positions_normalized [bingxZeroRaw] [hlShortRaw]).2.2
    (Position.mk "ETH" "SHORT" 2 50 3 1 40)
    (by norm_num [hyperliquid_get_positions, hlShortRaw, pyAbs])

/-! ## Decision validator
Source: `src/agents/llm_agent_broker_agnostic.py`,
`LLMAgent.parse_llm_output` (lines 82-152) and
`src/agents/llm_response_schema.py` (`CoTEntry`, lines 9-22;
`ChainOfThought`, lines 25-48). -/

/-- Python's `str.strip()`. -/
def pyStrip (s : String) : String := s.trim

/-- A validated entry of the `CHAIN_OF_THOUGHT` object: the fields of the
pydantic model `CoTEntry` (required fields plain, optional fields
`Option`).  This is the payload type a successful `ChainOfThought`
validation would produce. -/
structure CoTEntry where
  quantity : ℚ
  stop_loss : Option ℚ
  signal : String
  profit_target : Option ℚ
  invalidation_condition : Option String
  justification : String
  confidence : ℚ
  leverage : Int
  risk_usd : Option ℚ
  coin : String
deriving DecidableEq, Repr

/-- Outcome of a Python validation call: either an exception was raised
(with the exception's class name) or a value was produced. -/
inductive PyValidation (α : Type) where
  | raised (exc : String)
  | ok (a : α)
deriving Repr

/-- Abstract syntax of a raw LLM output text in which both tagged blocks
are present and match the source's two regular expressions
(`CHAIN_OF_THOUGHT\s*\n(\x7b.*?\x7d)\s*\n\s*▶` for the reasoning block,
and the positional `TRADING_DECISIONS` pattern for the free-text decision
block): `cotJsonStr` is the text captured by the braced group (arbitrary
JSON, well- or ill-shaped), and the remaining fields are the literal
values captured by the positional groups, `decConfidencePct` being the
digits of the integer percentage group.  Texts in which either regex
fails to match (the source prints and returns `None` before any
validation) have no representation here. -/
structure LLMText where
  cotJsonStr : String
  decSymbol : String
  decAction : String
  decConfidencePct : Nat
  decJustification : String
  decQuantity : ℚ
deriving Repr

/-- The exception class with which `ChainOfThought` validation fails:
pydantic v2 refuses the class declaration itself, which names a
`__root__` field alongside `root` (llm_response_schema.py lines 30-32),
with `TypeError` ("To define root models, use pydantic.RootModel rather
than a field called '__root__'"); pydantic v1 equally rejects `__root__`
mixed with other fields. -/
def schemaClassError : String := "TypeError"

/-- `ChainOfThought.model_validate_json(cot_json_str)` as it behaves in
the repository: executing the `ChainOfThought` class body raises (see
`schemaClassError`), so the schema module cannot be loaded — the
`from src.agents.llm_response_schema ...` import at
llm_agent_broker_agnostic.py line 13 fails — and no validation call ever
yields a validated chain of thought, whatever the input string.  The
raise is modelled at the call site, the first point the imported name
would be used.  The exception is a `TypeError`, not the pydantic
`ValidationError` the source's `try/except` clause catches, so it
propagates out of `parse_llm_output`. -/
def chainOfThought_model_validate_json (cot_json_str : String) :
    PyValidation (List (String × CoTEntry)) :=
  .raised schemaClassError

/-- The decision dict built by `parse_llm_output` (source lines 129-152).
The keys `leverage`, `stop_loss`, `profit_target`,
`invalidation_condition` and `risk_usd` are only added when the decision
symbol is found in the validated chain of thought; an absent key is
modelled by `none` (for `leverage`, key absent is `none` and key present
is `some`). -/
structure ParsedDecision where
  symbol : String
  action : String
  confidence : ℚ
  justification : String
  quantity : ℚ
  leverage : Option Int
  stop_loss : Option ℚ
  profit_target : Option ℚ
  invalidation_condition : Option String
  risk_usd : Option ℚ
deriving DecidableEq, Repr

/-- Outcome of `parse_llm_output`: an uncaught exception, or a returned
value (`none` models `return None`). -/
inductive ParseOutcome where
  | raised (exc : String)
  | returned (d : Option ParsedDecision)
deriving DecidableEq, Repr

/-- `LLMAgent.parse_llm_output` (source lines 82-152) on a text whose two
blocks matched: validate the chain of thought with pydantic, build the
result dict from the free-text decision block (`confidence_pct / 100.0`,
justification stripped, no range check on the percentage), then merge in
the validated entry for the decision symbol when present.  Because the
validation call raises for every input (see
`chainOfThought_model_validate_json`), only the `raised` branch is
reachable; the remaining lines are translated for the record. -/
def parse_llm_output (t : LLMText) : ParseOutcome :=
  match chainOfThought_model_validate_json t.cotJsonStr with
  | .raised exc => .raised exc
  | .ok cot_root =>
    let base : ParsedDecision :=
      { symbol := t.decSymbol
        action := t.decAction
        confidence := (t.decConfidencePct : ℚ) / 100
        justification := pyStrip t.decJustification
        quantity := t.decQuantity
        leverage := none
        stop_loss := none
        profit_target := none
        invalidation_condition := none
        risk_usd := none }
    match cot_root.find? (fun p => p.1 == t.decSymbol) with
    | some pe =>
      .returned (some { base with
        leverage := some pe.2.leverage
        stop_loss := pe.2.stop_loss
        profit_target := pe.2.profit_target
        invalidation_condition := pe.2.invalidation_condition
        risk_usd := pe.2.risk_usd })
    | none => .returned (some base)

/-- Whether a parse outcome returned a populated decision dict. -/
def returnsPopulatedDecision : ParseOutcome → Bool
  | .returned (some _) => true
  | _ => false

/-- The specification's round-trip example text: reasoning block keyed by
`ETH` and decision block `ETH / HOLD / 88% / "x" / QUANTITY: 22.66`. -/
def ethText : LLMText :=
  { cotJsonStr := "\x7b \"ETH\": \x7b \"signal\": \"HOLD\", \"justification\": \"x\", \"confidence\": 0.88, \"leverage\": 25, \"stop_loss\": 4120.0, \"profit_target\": 4280.0, \"risk_usd\": 1560.0 \x7d \x7d"
    decSymbol := "ETH"
    decAction := "HOLD"
    decConfidencePct := 88
    decJustification := "x"
    decQuantity := 22.66 }

/-- C5 evaluated at the failing input: on the specification's round-trip
example text, `parse_llm_output` does not return a populated decision —
the chain-of-thought validation raises `TypeError` (pydantic refuses the
`ChainOfThought` class itself), which the `except ValidationError`
clause does not catch, so no parse of any text round-trips the embedded
literal values. -/
theorem C5_round_trip_fails_on_example :
    parse_llm_output ethText = .raised schemaClassError ∧
    returnsPopulatedDecision (parse_llm_output ethText) = false := by
  constructor <;> rfl

/-- C6: for every two-block input text whose free-text decision block
carries an integer confidence percentage outside `[0, 100]` (the digits
group can only exceed the range upward, e.g. `150%`), parsing does not
return a populated decision.  In the source this holds because the
chain-of-thought validation step raises for every input text, before the
percentage is even read, so no input — in range or out — yields a
populated decision. -/
theorem C6_out_of_range_confidence_not_populated (t : LLMText)
    (hpct : 100 < t.decConfidencePct) :
    returnsPopulatedDecision (parse_llm_output t) = false := by
  rfl

/-- The example text with the decision-block confidence replaced by `150%`. -/
def overconfidentText : LLMText := { ethText with decConfidencePct := 150 }

theorem C6_out_of_range_confidence_not_populated_witness :
    100 < overconfidentText.decConfidencePct ∧
    returnsPopulatedDecision (parse_llm_output overconfidentText) = false :=
  ⟨by norm_num [overconfidentText, ethText],
    C6_out_of_range_confidence_not_populated overconfidentText
      (by norm_num [overconfidentText, ethText])⟩

end KripV1
